import Mathlib

/-!
# Payment PWA: promise pipeline (`src/js/app.js`) and service worker (`src/js/sw.js`)

A shallow embedding of the two JavaScript files.

* JavaScript strings that the code inspects character by character are
  sequences of UTF-16 code units (`JSString`); `s.length` is the length of
  that sequence.
* Regular expressions are values of Mathlib's `RegularExpression`, run by
  its derivative matcher `rmatch`; a pattern anchored by `^` and `$`
  (no `m` flag) matches exactly when the whole input matches.
* A promise built from `setTimeout` is a `Task`: a delay and the callback
  that settles it. The delay is the one the timer really waits, the 32-bit
  signed value of the argument (`timerDelay`). `Promise.all`, `Promise.race`
  and `Promise.allSettled` replay the timer callbacks in firing order against
  a promise that settles at most once.
* The service worker's `CacheStorage` is an ordered association list of
  named caches, each an ordered list of request/response pairs. A request
  matches an entry as in the Cache API: GET only, URLs compared without
  fragment, `Vary` honoured; `cache.put` refuses partial responses,
  `Vary: *` and writes beyond the storage quota.
-/

namespace PaymentPWA

/-! ## Strings and regular expressions -/

/-- A JavaScript string: its sequence of UTF-16 code units, each a natural number. -/
abbrev JSString := List Nat

/-- UTF-16 encoding of one Unicode scalar value. -/
def encodeChar (c : Char) : List Nat :=
  if c.toNat < 0x10000 then [c.toNat]
  else [0xD800 + (c.toNat - 0x10000) / 0x400, 0xDC00 + (c.toNat - 0x10000) % 0x400]

/-- The JavaScript string written by a literal. -/
def js (s : String) : JSString :=
  (s.toList.map encodeChar).flatten

/-- The code unit of a (basic-plane) character literal. -/
def cu (c : Char) : Nat := c.toNat

/-- A character class: any one of the listed code units. -/
def oneOf : List Nat → RegularExpression Nat
  | [] => 0
  | a :: l => RegularExpression.char a + oneOf l

/-- The class `\d`, which in JavaScript is `[0-9]`. -/
def digit : RegularExpression Nat :=
  oneOf ((List.range 10).map (fun i => cu '0' + i))

/-- The class `[a-b]` for code units `a ≤ b`. -/
def rangeClass (a b : Nat) : RegularExpression Nat :=
  oneOf ((List.range (b + 1 - a)).map (fun i => a + i))

/-- JavaScript `regex.test(s)` for a pattern of the form `^r$`. -/
def testAnchored (r : RegularExpression Nat) (s : JSString) : Bool :=
  r.rmatch s

/-- The pattern `/^\d+$/` without its anchors. -/
def digitsRegex : RegularExpression Nat :=
  digit * RegularExpression.star digit

/-- The pattern `/^(0[1-9]|1[0-2])\/\d{2}$/` without its anchors. -/
def expiryRegex : RegularExpression Nat :=
  (RegularExpression.char (cu '0') * rangeClass (cu '1') (cu '9')
      + RegularExpression.char (cu '1') * rangeClass (cu '0') (cu '2'))
    * RegularExpression.char (cu '/') * (digit * digit)

/-! ## Errors and timer tasks -/

/-- A JavaScript `Error` value, identified by its message. -/
structure JSError where
  message : String
  deriving DecidableEq, Repr

/-- The timers of `app.js`, by the function that sets them. -/
inductive TaskName
  | validateConnection | validateCard | validateCVV | validateExpiry
  | simulateProcessing | simulateTimeout
  | sendEmail | updateInventory | logTransaction | notifyWarehouse
  deriving DecidableEq, Repr

/-- A promise of the shape `new Promise((resolve, reject) => setTimeout(cb, delay))`:
`callback t` is what `cb` settles the promise with when it runs at time `t`
(milliseconds since the pipeline started). -/
structure Task (α : Type) where
  name : TaskName
  /-- The time the timer waits before it runs the callback. -/
  delay : Nat
  callback : Nat → Except JSError α

/-- The time `setTimeout(cb, ms)` waits, for a whole number `ms`: the argument
is converted to a 32-bit signed integer (modulo 2^32, the upper half being
negative) and a negative delay counts as 0. -/
def timerDelay (ms : Nat) : Nat :=
  if ms % 4294967296 < 2147483648 then ms % 4294967296 else 0

/-- A promise: pending, or settled once and for all at some time with an outcome. -/
inductive PromiseState (α : Type) where
  | pending
  | settled (time : Nat) (outcome : Except JSError α)

/-- Calling `resolve` or `reject` on a promise: only the first call has an effect. -/
def PromiseState.settle {α : Type} : PromiseState α → Nat → Except JSError α → PromiseState α
  | .pending, t, o => .settled t o
  | .settled t o, _, _ => .settled t o

/-- The order in which timers set in the same turn fire: by delay, and for
equal delays in the order they were set. (Stable insertion sort.) -/
def fireOrder {α : Type} (tasks : List (Nat × Task α)) : List (Nat × Task α) :=
  tasks.insertionSort (fun a b => a.2.delay ≤ b.2.delay)

/-- A promise together with the timers that were set to produce it. -/
structure Run (α : Type) where
  started : List TaskName
  promise : PromiseState α

/-- JavaScript `p.then(f)`: `f` runs when `p` fulfils, at that time; a rejection of `p`
passes through and `f` never runs. -/
def Run.andThen {α β : Type} (r : Run α) (f : Nat → α → Run β) : Run β :=
  match r.promise with
  | .pending => ⟨r.started, .pending⟩
  | .settled t (.error e) => ⟨r.started, .settled t (.error e)⟩
  | .settled t (.ok v) => ⟨r.started ++ (f t v).started, (f t v).promise⟩

/-- JavaScript `Promise.race(tasks)`, all tasks created at time `start`: the result
promise is settled by every input promise as it settles. -/
def promiseRace {α : Type} (start : Nat) (tasks : List (Task α)) : Run α :=
  { started := tasks.map (fun k => k.name)
    promise := (fireOrder tasks.enum).foldl
      (fun p k => p.settle (start + k.2.delay) (k.2.callback (start + k.2.delay)))
      .pending }

/-- The bookkeeping of `Promise.all` / `Promise.allSettled`: one slot per
input promise, the count of inputs not yet recorded, and the result promise. -/
structure Gather (σ α : Type) where
  slots : List (Option σ)
  remaining : Nat
  promise : PromiseState α

/-- Record the value of input `i` at time `t`; when it was the last one,
resolve the result promise with all recorded values. -/
def Gather.record {σ : Type} (g : Gather σ (List σ)) (i t : Nat) (v : σ) : Gather σ (List σ) :=
  let slots := g.slots.set i (some v)
  { slots := slots
    remaining := g.remaining - 1
    promise := if g.remaining - 1 = 0 then g.promise.settle t (.ok slots.reduceOption)
               else g.promise }

/-- One input promise of `Promise.all` settles. -/
def allStep {α : Type} (start : Nat) (g : Gather α (List α)) (k : Nat × Task α) :
    Gather α (List α) :=
  match k.2.callback (start + k.2.delay) with
  | .ok v => g.record k.1 (start + k.2.delay) v
  | .error e => { g with promise := g.promise.settle (start + k.2.delay) (.error e) }

/-- JavaScript `Promise.all(tasks)`, all tasks created at time `start`. -/
def promiseAll {α : Type} (start : Nat) (tasks : List (Task α)) : Run (List α) :=
  { started := tasks.map (fun k => k.name)
    promise := ((fireOrder tasks.enum).foldl (allStep start)
      { slots := tasks.map (fun _ => none)
        remaining := tasks.length
        promise := if tasks.length = 0 then .settled start (.ok []) else .pending }).promise }

/-- One input promise of `Promise.allSettled` settles: its outcome, fulfilled
or rejected, is recorded. -/
def allSettledStep {α : Type} (start : Nat) (g : Gather (Except JSError α) (List (Except JSError α)))
    (k : Nat × Task α) : Gather (Except JSError α) (List (Except JSError α)) :=
  g.record k.1 (start + k.2.delay) (k.2.callback (start + k.2.delay))

/-- JavaScript `Promise.allSettled(tasks)`, all tasks created at time `start`. An entry
`.ok v` is `{status: 'fulfilled', value: v}`, `.error e` is
`{status: 'rejected', reason: e}`. -/
def promiseAllSettled {α : Type} (start : Nat) (tasks : List (Task α)) :
    Run (List (Except JSError α)) :=
  { started := tasks.map (fun k => k.name)
    promise := ((fireOrder tasks.enum).foldl (allSettledStep start)
      { slots := tasks.map (fun _ => none)
        remaining := tasks.length
        promise := if tasks.length = 0 then .settled start (.ok []) else .pending }).promise }

/-! ## `parseInt`, `split` and `Date` -/

/-- The white space and line terminator code units that `parseInt` skips. -/
def isStrWhiteSpace (c : Nat) : Bool :=
  c = 9 || c = 10 || c = 11 || c = 12 || c = 13 || c = 32 || c = 0xA0 || c = 0x1680
    || (0x2000 ≤ c && c ≤ 0x200A) || c = 0x2028 || c = 0x2029 || c = 0x202F
    || c = 0x205F || c = 0x3000 || c = 0xFEFF

/-- The value of a code unit as a digit in the given radix, if it is one. -/
def digitValue (radix : Nat) (c : Nat) : Option Nat :=
  let v := if cu '0' ≤ c ∧ c ≤ cu '9' then some (c - cu '0')
           else if cu 'a' ≤ c ∧ c ≤ cu 'z' then some (c - cu 'a' + 10)
           else if cu 'A' ≤ c ∧ c ≤ cu 'Z' then some (c - cu 'A' + 10)
           else none
  v.bind (fun d => if d < radix then some d else none)

/-- Read the longest prefix of digits, accumulating its value; the flag tells
whether any digit was read. -/
def readDigits (radix : Nat) : JSString → Nat → Bool → Nat × Bool
  | [], acc, any => (acc, any)
  | c :: cs, acc, any =>
    match digitValue radix c with
    | some d => readDigits radix cs (acc * radix + d) true
    | none => (acc, any)

/-- JavaScript `parseInt(s)` with no radix argument; `none` is `NaN`. -/
def parseInt (s : JSString) : Option Int :=
  let s1 := s.dropWhile isStrWhiteSpace
  let negative := s1.head? = some (cu '-')
  let s2 := if s1.head? = some (cu '-') ∨ s1.head? = some (cu '+') then s1.tail else s1
  let hex := s2.take 2 = js "0x" ∨ s2.take 2 = js "0X"
  let r := if hex then readDigits 16 (s2.drop 2) 0 false else readDigits 10 s2 0 false
  if r.2 then some (if negative then - (r.1 : Int) else (r.1 : Int)) else none

/-- JavaScript `parseInt(x)` where `x` may be `undefined` (whose string has no digits). -/
def parseIntOpt : Option JSString → Option Int
  | some s => parseInt s
  | none => none

/-- JavaScript `s.split(sep)` for a one-unit separator. -/
def split (sep : Nat) : JSString → List JSString
  | [] => [[]]
  | c :: cs =>
    if c = sep then [] :: split sep cs
    else match split sep cs with
      | [] => [[c]]
      | h :: t => (c :: h) :: t

/-- JavaScript `DayFromYear(y)`: the day number of 1 January of year `y`. -/
def dayFromYear (y : Int) : Int :=
  365 * (y - 1970) + (y - 1969) / 4 - (y - 1901) / 100 + (y - 1601) / 400

/-- Whether year `y` has 366 days. -/
def isLeapYear (y : Int) : Bool :=
  (y % 4 = 0 && y % 100 != 0) || y % 400 = 0

/-- Days of the year before the first of month `m` (0 = January). -/
def daysBeforeMonth (leap : Bool) (m : Int) : Int :=
  let base : Int :=
    if m = 0 then 0 else if m = 1 then 31 else if m = 2 then 59 else if m = 3 then 90
    else if m = 4 then 120 else if m = 5 then 151 else if m = 6 then 181
    else if m = 7 then 212 else if m = 8 then 243 else if m = 9 then 273
    else if m = 10 then 304 else 334
  if leap ∧ 2 ≤ m then base + 1 else base

/-- JavaScript `MakeDay(year, month, date)`: months outside 0..11 carry into the year. -/
def makeDay (year month date : Int) : Int :=
  let ym := year + month / 12
  let mn := month % 12
  dayFromYear ym + daysBeforeMonth (isLeapYear ym) mn + date - 1

/-- Milliseconds per day. -/
def msPerDay : Int := 86400000

/-- JavaScript `TimeClip(t)`: time values beyond ±8.64e15 ms are not dates. -/
def timeClip (t : Int) : Option Int :=
  if t.natAbs ≤ 8640000000000000 then some t else none

/-- JavaScript `MakeFullYear(y)`: years 0..99 mean 1900..1999. -/
def makeFullYear (y : Int) : Int :=
  if 0 ≤ y ∧ y ≤ 99 then 1900 + y else y

/-- JavaScript `new Date(year, monthIndex)`: midnight local time on the first day of that
month, as a time value (ms since the epoch, UTC). `utc` converts a local time
to UTC; `none` is an invalid date. -/
def newDate (utc : Int → Int) (year monthIndex : Option Int) : Option Int :=
  match year, monthIndex with
  | some y, some m => timeClip (utc (makeDay (makeFullYear y) m 1 * msPerDay))
  | _, _ => none

/-- JavaScript `a > b` on dates; a comparison with an invalid date is false. -/
def dateGt (a b : Option Int) : Bool :=
  match a, b with
  | some x, some y => decide (y < x)
  | _, _ => false

/-! ## `app.js`: environment and data -/

/-- What the page's environment supplies to one run of the pipeline. -/
structure Env where
  /-- JavaScript `navigator.onLine`. -/
  onLine : Bool
  /-- The clock (`Date.now()`) when `processPayment` is called. -/
  startTime : Int
  /-- Local time to UTC in the browser's time zone. -/
  utc : Int → Int
  /-- The value of `Math.random().toString(36).substr(2, 9).toUpperCase()`. -/
  txnSuffix : String
  /-- The `Math.random()` drawn by `sendEmail`. -/
  emailRandom : ℚ
  /-- The `Math.random()` drawn by `notifyWarehouse`. -/
  warehouseRandom : ℚ

/-- The clock when a timer callback runs `t` ms into the pipeline. -/
def Env.now (env : Env) (t : Nat) : Int := env.startTime + t

/-- The object built by `handleSubmit`. -/
structure TransactionData where
  customerName : String
  idNumber : String
  cardNumber : JSString
  expiryDate : JSString
  cvv : JSString
  amount : ℚ
  timestamp : String

/-- The object `simulateProcessing` resolves with; `timestamp` is the time
value that `toISOString` renders. -/
structure PaymentResult where
  success : Bool
  transactionId : String
  amount : ℚ
  customerName : String
  timestamp : Int
  message : String

/-- The `postTasks` field. -/
structure PostTaskSummary where
  total : Nat
  successful : Nat

/-- The object `executePostTasks` resolves with: `{...paymentResult, postTasks}`. -/
structure FinalResult extends PaymentResult where
  postTasks : PostTaskSummary

/-! ## `app.js`: the validation, processing and post-task promises -/

def validateConnection (env : Env) : Task String :=
  { name := .validateConnection
    delay := timerDelay 100
    callback := fun _ =>
      if env.onLine then .ok "Conexión OK"
      else .error ⟨"No hay conexión a internet"⟩ }

def validateCard (cardNumber : JSString) : Task String :=
  { name := .validateCard
    delay := timerDelay 100
    callback := fun _ =>
      if cardNumber.length = 16 ∧ testAnchored digitsRegex cardNumber then .ok "Tarjeta válida"
      else .error ⟨"El número de tarjeta debe tener 16 dígitos"⟩ }

def validateCVV (cvv : JSString) : Task String :=
  { name := .validateCVV
    delay := timerDelay 100
    callback := fun _ =>
      if cvv.length = 3 ∧ testAnchored digitsRegex cvv then .ok "CVV válido"
      else .error ⟨"El CVV debe tener 3 dígitos"⟩ }

def validateExpiry (env : Env) (expiry : JSString) : Task String :=
  { name := .validateExpiry
    delay := timerDelay 100
    callback := fun t =>
      if !testAnchored expiryRegex expiry then
        .error ⟨"Formato de fecha inválido (MM/AA)"⟩
      else
        let parts := split (cu '/') expiry
        let month := parts.get? 0
        let year := parts.get? 1
        let expiryDate := newDate env.utc ((parseIntOpt year).map (fun y => 2000 + y))
          ((parseIntOpt month).map (fun m => m - 1))
        if dateGt expiryDate (some (env.now t)) then .ok "Fecha válida"
        else .error ⟨"La tarjeta ha expirado"⟩ }

def simulateProcessing (env : Env) (data : TransactionData) : Task PaymentResult :=
  { name := .simulateProcessing
    delay := timerDelay 2000
    callback := fun t =>
      let txnId := "TXN-" ++ toString (env.now t) ++ "-" ++ env.txnSuffix
      .ok { success := true
            transactionId := txnId
            amount := data.amount
            customerName := data.customerName
            timestamp := env.now t
            message := "Pago procesado exitosamente" } }

def simulateTimeout (ms : Nat) : Task PaymentResult :=
  { name := .simulateTimeout
    delay := timerDelay ms
    callback := fun _ => .error ⟨"Timeout: El servidor tardó demasiado"⟩ }

def sendEmail (env : Env) (_result : PaymentResult) : Task String :=
  { name := .sendEmail
    delay := timerDelay 500
    callback := fun _ =>
      if env.emailRandom > 1 / 10 then .ok "Email enviado" else .error ⟨"Error email"⟩ }

def updateInventory (_result : PaymentResult) : Task String :=
  { name := .updateInventory
    delay := timerDelay 300
    callback := fun _ => .ok "Inventario actualizado" }

def logTransaction (_result : PaymentResult) : Task String :=
  { name := .logTransaction
    delay := timerDelay 400
    callback := fun _ => .ok "Transacción registrada" }

def notifyWarehouse (env : Env) (_result : PaymentResult) : Task String :=
  { name := .notifyWarehouse
    delay := timerDelay 600
    callback := fun _ =>
      if env.warehouseRandom > 2 / 10 then .ok "Almacén notificado" else .error ⟨"Error almacén"⟩ }

/-- JavaScript `r.status === 'fulfilled'`. -/
def isFulfilled {α : Type} : Except JSError α → Bool
  | .ok _ => true
  | .error _ => false

/-- The array of promises `executePostTasks` builds. -/
def postTaskList (env : Env) (paymentResult : PaymentResult) : List (Task String) :=
  [sendEmail env paymentResult, updateInventory paymentResult,
   logTransaction paymentResult, notifyWarehouse env paymentResult]

/-- The function `executePostTasks`, called at time `start`. -/
def executePostTasks (env : Env) (start : Nat) (paymentResult : PaymentResult) : Run FinalResult :=
  (promiseAllSettled start (postTaskList env paymentResult)).andThen
  fun t results =>
    let successful := (results.filter isFulfilled).length
    { started := []
      promise := .settled t (.ok
        { toPaymentResult := paymentResult
          postTasks := { total := results.length, successful := successful } }) }

/-- The expression `Promise.race([simulateProcessing(data), simulateTimeout(ms)])`
of `processPayment`, evaluated at time `start`. -/
def processingRace (env : Env) (data : TransactionData) (start ms : Nat) : Run PaymentResult :=
  promiseRace start [simulateProcessing env data, simulateTimeout ms]

/-- The array of promises `processPayment` builds first. -/
def validationList (env : Env) (data : TransactionData) : List (Task String) :=
  [validateConnection env, validateCard data.cardNumber,
   validateCVV data.cvv, validateExpiry env data.expiryDate]

/-- The validation stage of `processPayment`: the `Promise.all` it opens with. -/
def validationStage (env : Env) (data : TransactionData) : Run (List String) :=
  promiseAll 0 (validationList env data)

/-- The function `processPayment`, called at time 0. -/
def processPayment (env : Env) (data : TransactionData) : Run FinalResult :=
  ((validationStage env data).andThen
    fun t _validations => processingRace env data t 3000).andThen
    fun t paymentResult => executePostTasks env t paymentResult

/-! ## `sw.js`: the cache storage and the three listeners -/

/-- A request: its method, its URL and its headers (names in lower case).
URLs are http(s) URLs, written relative to the worker's location as in the
source; a fragment, if any, follows the first `#`. -/
structure Request where
  method : String
  url : String
  headers : List (String × String)
  deriving DecidableEq, Repr

/-- A response: status, type (`basic`, `cors`, `opaque`, ...), payload, and
the field names its `Vary` header lists (lower case, `*` included; empty when
the response has no `Vary` header). -/
structure Response where
  status : Nat
  type : String
  body : String
  vary : List String
  deriving DecidableEq, Repr

/-- One named cache: its request/response entries in insertion order. -/
abbrev Cache := List (Request × Response)

/-- The `caches` object: the named caches in creation order. -/
abbrev CacheStorage := List (String × Cache)

/-- The remote origin: what `fetch(request)` settles with. -/
abbrev Origin := Request → Except JSError Response

def CACHE_NAME : String := "payment-pwa-v1"

def CACHE_FILES : List String :=
  ["./", "./index.html", "./css/style.css", "./js/app.js"]

/-- State of the service worker and of what it acts on. -/
structure SWState where
  caches : CacheStorage
  /-- Every `fetch` sent to the origin so far. -/
  originCalls : List Request
  /-- Lines written by `console.log` / `console.error`. -/
  console : List String
  skipWaitingCalled : Bool
  clientsClaimed : Bool
  /-- Started but not yet completed `caches.open(CACHE_NAME).then(cache => cache.put(..))`. -/
  writeBacks : List (Request × Response)
  /-- Whether the storage quota is used up, so that a cache write fails. -/
  quotaExceeded : Bool

/-- A promise chain run to its settlement: the state it leaves and its outcome. -/
abbrev Chain (α : Type) := SWState × Except JSError α

/-- The method `.then(f)`. -/
def Chain.andThen {α β : Type} (c : Chain α) (f : SWState → α → Chain β) : Chain β :=
  match c with
  | (st, .ok v) => f st v
  | (st, .error e) => (st, .error e)

/-- The method `.catch(h)`: the chain settles as the handler does. -/
def Chain.catch {α : Type} (c : Chain α) (h : SWState → JSError → Chain α) : Chain α :=
  match c with
  | (st, .ok v) => (st, .ok v)
  | (st, .error e) => h st e

def SWState.log (st : SWState) (line : String) : SWState :=
  { st with console := st.console ++ [line] }

/-- The URL with its fragment removed. -/
def urlWithoutFragment (url : String) : String :=
  String.mk (url.toList.takeWhile (fun c => c != '#'))

/-- The combined value of the headers of the given name, if there is any. -/
def headerValue (headers : List (String × String)) (name : String) : Option String :=
  match (headers.filter (fun h => h.1 = name)).map (fun h => h.2) with
  | [] => none
  | v :: vs => some (", ".intercalate (v :: vs))

/-- Whether a request matches a cached entry: only GET requests match, URLs
are compared without their fragments, and for every field the cached
response's `Vary` header names the two requests must carry the same value;
an entry whose `Vary` lists `*` matches nothing. -/
def requestMatches (query cachedRequest : Request) (cachedResponse : Response) : Bool :=
  decide (query.method = "GET")
    && decide (urlWithoutFragment query.url = urlWithoutFragment cachedRequest.url)
    && cachedResponse.vary.all (fun f =>
        decide (f ≠ "*")
          && decide (headerValue cachedRequest.headers f = headerValue query.headers f))

/-- JavaScript `cache.match(request)`: the response of the first entry the
request matches. -/
def cacheMatch (c : Cache) (req : Request) : Option Response :=
  (c.find? (fun e => requestMatches req e.1 e.2)).map (fun e => e.2)

/-- JavaScript `cache.put(request, response)`: removes the entries the request
matches and appends the new one. Rejects for a non-GET request, a partial
(206) response, a response whose `Vary` header lists `*`, and when the
storage quota is exceeded. -/
def cachePut (quotaExceeded : Bool) (c : Cache) (req : Request) (resp : Response) :
    Except JSError Cache :=
  if req.method ≠ "GET" then .error ⟨"TypeError: request method is not GET"⟩
  else if resp.status = 206 then .error ⟨"TypeError: partial response"⟩
  else if "*" ∈ resp.vary then .error ⟨"TypeError: Vary header contains *"⟩
  else if quotaExceeded then .error ⟨"QuotaExceededError"⟩
  else .ok (c.filter (fun e => !requestMatches req e.1 e.2) ++ [(req, resp)])

/-- The cache with the given name, if there is one. -/
def cacheNamed (cs : CacheStorage) (name : String) : Option Cache :=
  (cs.find? (fun e => e.1 = name)).map (fun e => e.2)

/-- Replace the content of the cache with the given name. -/
def setCache (cs : CacheStorage) (name : String) (c : Cache) : CacheStorage :=
  cs.map (fun e => if e.1 = name then (e.1, c) else e)

/-- JavaScript `caches.open(name)`: creates the cache when it does not exist; the
handle it resolves with is the name. -/
def cachesOpen (name : String) (st : SWState) : Chain String :=
  ({ st with caches := if (cacheNamed st.caches name).isSome then st.caches
                       else st.caches ++ [(name, [])] }, .ok name)

/-- JavaScript `caches.match(request)`: the first match over all caches, in creation order. -/
def cachesMatch (req : Request) (st : SWState) : Chain (Option Response) :=
  (st, .ok (st.caches.findSome? (fun e => cacheMatch e.2 req)))

/-- JavaScript `caches.keys()`. -/
def cachesKeys (st : SWState) : Chain (List String) :=
  (st, .ok (st.caches.map (fun e => e.1)))

/-- JavaScript `caches.delete(key)`. -/
def cachesDelete (key : String) (st : SWState) : Chain Bool :=
  ({ st with caches := st.caches.filter (fun e => e.1 ≠ key) },
   .ok (cacheNamed st.caches key).isSome)

/-- JavaScript `fetch(request)`: one call to the origin. -/
def fetchOrigin (origin : Origin) (req : Request) (st : SWState) : Chain Response :=
  ({ st with originCalls := st.originCalls ++ [req] }, origin req)

/-- The responses for all requests, or the first failure: a rejected fetch,
a status outside 200..299, a partial (206) response, or a `Vary` header
that lists `*`. -/
def fetchAllOk (origin : Origin) : List Request → Except JSError (List (Request × Response))
  | [] => .ok []
  | req :: rest =>
    match origin req with
    | .error e => .error e
    | .ok resp =>
      if 200 ≤ resp.status ∧ resp.status ≤ 299 ∧ resp.status ≠ 206 ∧ "*" ∉ resp.vary then
        match fetchAllOk origin rest with
        | .error e => .error e
        | .ok l => .ok ((req, resp) :: l)
      else .error ⟨"TypeError: bad response"⟩

/-- Put the entries into a cache one after the other. -/
def putAll (quotaExceeded : Bool) (c : Cache) :
    List (Request × Response) → Except JSError Cache
  | [] => .ok c
  | (req, resp) :: rest =>
    match cachePut quotaExceeded c req resp with
    | .error e => .error e
    | .ok c1 => putAll quotaExceeded c1 rest

/-- JavaScript `cache.addAll(urls)` on the cache with the given name: all URLs are
fetched; entries are stored only when every fetch gave an ok response. -/
def cacheAddAll (origin : Origin) (name : String) (urls : List String) (st : SWState) :
    Chain Unit :=
  let reqs := urls.map (fun u => ({ method := "GET", url := u, headers := [] } : Request))
  let st1 := { st with originCalls := st.originCalls ++ reqs }
  match fetchAllOk origin reqs with
  | .error e => (st1, .error e)
  | .ok entries =>
    match putAll st1.quotaExceeded ((cacheNamed st1.caches name).getD []) entries with
    | .error e => (st1, .error e)
    | .ok c => ({ st1 with caches := setCache st1.caches name c }, .ok ())

/-- JavaScript `self.skipWaiting()`. -/
def skipWaiting (st : SWState) : Chain Unit :=
  ({ st with skipWaitingCalled := true }, .ok ())

/-- JavaScript `self.clients.claim()`. -/
def clientsClaim (st : SWState) : Chain Unit :=
  ({ st with clientsClaimed := true }, .ok ())

/-- The `install` listener: the state it leaves and the settlement of the
promise it passes to `event.waitUntil`. -/
def installListener (origin : Origin) (st : SWState) : Chain Unit :=
  (((cachesOpen CACHE_NAME (st.log "SW: Instalando...")).andThen
      fun st cache => cacheAddAll origin cache CACHE_FILES st).andThen
      fun st _ => skipWaiting st).catch
      fun st err => (st.log ("Error al cachear: " ++ err.message), .ok ())

/-- The callback `key => { if (key !== CACHE_NAME) return caches.delete(key); }`
inside `Promise.all(keys.map(..))`, for one key. -/
def deleteIfOld (st : SWState) (key : String) : SWState :=
  if key ≠ CACHE_NAME then ((cachesDelete key (st.log ("Eliminando cache viejo: " ++ key))).1)
  else st

/-- The `activate` listener: the state it leaves and the settlement of the
promise it passes to `event.waitUntil`. -/
def activateListener (st : SWState) : Chain Unit :=
  ((cachesKeys (st.log "SW: Activando...")).andThen
      fun st keys => ((keys.foldl deleteIfOld st, .ok ()) : Chain Unit)).andThen
      fun st _ => clientsClaim st

/-- The `fetch` listener: the state it leaves and, when it calls
`event.respondWith`, the settlement of the promise it passes; `none` when
the listener returns without responding. -/
def fetchListener (origin : Origin) (st : SWState) (req : Request) :
    SWState × Option (Except JSError Response) :=
  if req.method ≠ "GET" then (st, none)
  else
    let c : Chain Response := (cachesMatch req st).andThen fun st cached =>
      match cached with
      | some r => (st.log ("Desde cache: " ++ req.url), .ok r)
      | none =>
        ((fetchOrigin origin req (st.log ("Desde red: " ++ req.url))).andThen
          fun st response =>
            if response.status = 200 ∧ response.type = "basic" then
              ({ st with writeBacks := st.writeBacks ++ [(req, response)] }, .ok response)
            else (st, .ok response)).catch
          fun st err => (st.log ("Error fetch: " ++ err.message), .error err)
    (c.1, some c.2)

/-- One write-back `caches.open(CACHE_NAME).then(cache => cache.put(request, clone))`
runs to completion; a rejected `put` leaves the cache as it was. -/
def writeBack (quotaExceeded : Bool) (cs : CacheStorage) (w : Request × Response) :
    CacheStorage :=
  let cs1 := if (cacheNamed cs CACHE_NAME).isSome then cs else cs ++ [(CACHE_NAME, [])]
  match cachePut quotaExceeded ((cacheNamed cs1 CACHE_NAME).getD []) w.1 w.2 with
  | .ok c => setCache cs1 CACHE_NAME c
  | .error _ => cs1

/-- All started write-backs run to completion, in the order they were started. -/
def completeWriteBacks (st : SWState) : SWState :=
  { st with
    caches := st.writeBacks.foldl (writeBack st.quotaExceeded) st.caches
    writeBacks := [] }

/-! ## Specification vocabulary -/

/-- A code unit that is one of the decimal digits `0`..`9`. -/
def IsDecimalDigit (c : Nat) : Prop := cu '0' ≤ c ∧ c ≤ cu '9'

instance (c : Nat) : Decidable (IsDecimalDigit c) :=
  inferInstanceAs (Decidable (cu '0' ≤ c ∧ c ≤ cu '9'))

/-- The number a digit code unit stands for. -/
def digitNum (c : Nat) : Nat := c - cu '0'

/-- A string of the form `MM/YY`: five code units, two digits that form a
month 01..12, a slash, two digits. -/
def IsExpiryFormat (s : JSString) : Prop :=
  ∃ m1 m2 y1 y2, s = [m1, m2, cu '/', y1, y2]
    ∧ IsDecimalDigit m1 ∧ IsDecimalDigit m2
    ∧ 1 ≤ 10 * digitNum m1 + digitNum m2 ∧ 10 * digitNum m1 + digitNum m2 ≤ 12
    ∧ IsDecimalDigit y1 ∧ IsDecimalDigit y2

/-- An environment in the UTC time zone whose clock reads
2024-01-15T00:00:00.000Z when the expiry timer fires (100 ms in). -/
def envMidJanuary2024 : Env :=
  { onLine := true
    startTime := 1705276799900
    utc := id
    txnSuffix := "K3J9X0QWZ"
    emailRandom := 1 / 2
    warehouseRandom := 1 / 2 }

/-- A submission with a valid card and CVV and the given expiry. -/
def sampleData (expiry : String) : TransactionData :=
  { customerName := "Ana Pérez"
    idNumber := "1020304050"
    cardNumber := js "4111111111111111"
    expiryDate := js expiry
    cvv := js "123"
    amount := 100
    timestamp := "2024-01-15T00:00:00.000Z" }

/-- A service worker that has not run yet, with no cache at all. -/
def freshSW : SWState :=
  { caches := []
    originCalls := []
    console := []
    skipWaitingCalled := false
    clientsClaimed := false
    writeBacks := []
    quotaExceeded := false }

/-- An origin that serves every resource, same-origin, with status 200. -/
def healthyOrigin : Origin :=
  fun req => .ok { status := 200, type := "basic", body := "content of " ++ req.url, vary := [] }

/-- An origin that serves every resource, same-origin, with status 200 and the
header `Vary: *`. -/
def varyStarOrigin : Origin :=
  fun req =>
    .ok { status := 200, type := "basic", body := "content of " ++ req.url, vary := ["*"] }

/-- An origin whose style sheet cannot be fetched; everything else is served. -/
def originWithoutStyle : Origin :=
  fun req =>
    if req.url = "./css/style.css" then .error ⟨"TypeError: Failed to fetch"⟩
    else .ok { status := 200, type := "basic", body := "content of " ++ req.url, vary := [] }

/-- The GET request for the page. -/
def pageRequest : Request := { method := "GET", url := "./index.html", headers := [] }

/-- The page as an older deployment stored it. -/
def stalePage : Response :=
  { status := 200, type := "basic", body := "page of the old release", vary := [] }

/-- The page as the current deployment stored it. -/
def currentPage : Response :=
  { status := 200, type := "basic", body := "page of this release", vary := [] }

/-- A state in which a store of an older deployment, created first, is still
around next to the active one, both holding the page. -/
def staleFirstSW : SWState :=
  { freshSW with
    caches := [("payment-pwa-v0", [(pageRequest, stalePage)]),
               (CACHE_NAME, [(pageRequest, currentPage)])] }

/-! ## Regular expressions: what the three patterns match -/

theorem oneOf_rmatch_iff (l : List Nat) (s : JSString) :
    (oneOf l).rmatch s ↔ ∃ a ∈ l, s = [a] := by
  induction l with
  | nil => simp [oneOf, RegularExpression.zero_rmatch]
  | cons a l ih =>
    simp only [oneOf, RegularExpression.add_rmatch_iff, RegularExpression.char_rmatch_iff, ih,
      List.mem_cons, exists_eq_or_imp]

theorem rangeClass_rmatch_iff (a b : Nat) (s : JSString) :
    (rangeClass a b).rmatch s ↔ ∃ c, s = [c] ∧ a ≤ c ∧ c ≤ b := by
  simp only [rangeClass, oneOf_rmatch_iff, List.mem_map, List.mem_range]
  constructor
  · rintro ⟨c, ⟨i, hi, rfl⟩, rfl⟩
    exact ⟨a + i, rfl, by omega, by omega⟩
  · rintro ⟨c, rfl, h1, h2⟩
    exact ⟨c, ⟨c - a, by omega, by omega⟩, rfl⟩

theorem digit_rmatch_iff (s : JSString) :
    digit.rmatch s ↔ ∃ c, s = [c] ∧ IsDecimalDigit c := by
  simp only [digit, oneOf_rmatch_iff, List.mem_map, List.mem_range, IsDecimalDigit]
  have h0 : cu '0' = 48 := rfl
  have h9 : cu '9' = 57 := rfl
  constructor
  · rintro ⟨c, ⟨i, hi, rfl⟩, rfl⟩
    exact ⟨cu '0' + i, rfl, by omega, by omega⟩
  · rintro ⟨c, rfl, h1, h2⟩
    exact ⟨c, ⟨c - cu '0', by omega, by omega⟩, rfl⟩

theorem star_digit_rmatch_iff (s : JSString) :
    (RegularExpression.star digit).rmatch s ↔ ∀ c ∈ s, IsDecimalDigit c := by
  rw [RegularExpression.star_rmatch_iff]
  constructor
  · rintro ⟨S, rfl, hS⟩ c hc
    obtain ⟨t, ht, hct⟩ := List.mem_flatten.mp hc
    obtain ⟨d, rfl, hd⟩ := (digit_rmatch_iff t).mp (hS t ht).2
    simp only [List.mem_singleton] at hct
    exact hct ▸ hd
  · intro h
    refine ⟨s.map (fun c => [c]), ?_, ?_⟩
    · clear h
      induction s with
      | nil => rfl
      | cons a l ih => simp [← ih]
    · intro t ht
      obtain ⟨c, hc, rfl⟩ := List.mem_map.mp ht
      exact ⟨by simp, (digit_rmatch_iff [c]).mpr ⟨c, rfl, h c hc⟩⟩

theorem digitsRegex_test_iff (s : JSString) :
    testAnchored digitsRegex s = true ↔ s ≠ [] ∧ ∀ c ∈ s, IsDecimalDigit c := by
  simp only [testAnchored, digitsRegex, RegularExpression.mul_rmatch_iff, digit_rmatch_iff,
    star_digit_rmatch_iff]
  constructor
  · rintro ⟨t, u, rfl, ⟨c, rfl, hc⟩, hu⟩
    refine ⟨by simp, ?_⟩
    intro d hd
    simp only [List.singleton_append, List.mem_cons] at hd
    rcases hd with rfl | hd
    · exact hc
    · exact hu d hd
  · rintro ⟨hne, h⟩
    cases s with
    | nil => exact absurd rfl hne
    | cons a l =>
      exact ⟨[a], l, rfl, ⟨a, rfl, h a (by simp)⟩, fun c hc => h c (by simp [hc])⟩

theorem expiryRegex_test_iff (s : JSString) :
    testAnchored expiryRegex s = true ↔ IsExpiryFormat s := by
  have h0 : cu '0' = 48 := rfl
  have h1 : cu '1' = 49 := rfl
  have h2 : cu '2' = 50 := rfl
  have h9 : cu '9' = 57 := rfl
  simp only [testAnchored, expiryRegex, RegularExpression.mul_rmatch_iff,
    RegularExpression.add_rmatch_iff, RegularExpression.char_rmatch_iff, digit_rmatch_iff,
    rangeClass_rmatch_iff, IsExpiryFormat, IsDecimalDigit, digitNum]
  constructor
  · rintro ⟨t, u, rfl, ⟨t1, u1, rfl, hm, rfl⟩, ⟨a, b, rfl, ⟨y1, rfl, hy1⟩, ⟨y2, rfl, hy2⟩⟩⟩
    rcases hm with ⟨a1, b1, rfl, rfl, ⟨m2, rfl, hm2⟩⟩ | ⟨a1, b1, rfl, rfl, ⟨m2, rfl, hm2⟩⟩
    · exact ⟨cu '0', m2, y1, y2, rfl, by omega, by omega, by omega, by omega, hy1, hy2⟩
    · exact ⟨cu '1', m2, y1, y2, rfl, by omega, by omega, by omega, by omega, hy1, hy2⟩
  · rintro ⟨m1, m2, y1, y2, rfl, hm1, hm2, hlo, hhi, hy1, hy2⟩
    refine ⟨[m1, m2, cu '/'], [y1, y2], rfl, ⟨[m1, m2], [cu '/'], rfl, ?_, rfl⟩,
      ⟨[y1], [y2], rfl, ⟨y1, rfl, hy1⟩, ⟨y2, rfl, hy2⟩⟩⟩
    by_cases hc : m1 = cu '0'
    · exact Or.inl ⟨[m1], [m2], rfl, by rw [hc], ⟨m2, rfl, by omega, by omega⟩⟩
    · exact Or.inr ⟨[m1], [m2], rfl, by congr 1; omega, ⟨m2, rfl, by omega, by omega⟩⟩

/-! ## The card and expiry checks -/

/-- C8: `validateCard(s)` fulfils exactly when `s` is 16 code units long and
every one of them is a decimal digit; for every other string it rejects with
the error 'El número de tarjeta debe tener 16 dígitos'. The two outcomes are
the only ones, whatever the time the timer callback runs at. -/
theorem validateCard_ok_iff_sixteen_digits (s : JSString) (t : Nat) :
    ((validateCard s).callback t = .ok "Tarjeta válida"
        ↔ (s.length = 16 ∧ ∀ c ∈ s, IsDecimalDigit c))
    ∧ ((validateCard s).callback t = .error ⟨"El número de tarjeta debe tener 16 dígitos"⟩
        ↔ ¬ (s.length = 16 ∧ ∀ c ∈ s, IsDecimalDigit c))
    ∧ (validateCard s).delay = 100 := by
  have key : (s.length = 16 ∧ testAnchored digitsRegex s = true)
      ↔ (s.length = 16 ∧ ∀ c ∈ s, IsDecimalDigit c) := by
    rw [digitsRegex_test_iff]
    constructor
    · rintro ⟨h, -, hd⟩
      exact ⟨h, hd⟩
    · rintro ⟨h, hd⟩
      refine ⟨h, ?_, hd⟩
      intro hs
      rw [hs] at h
      simp at h
  refine ⟨?_, ?_, rfl⟩
  · rw [← key]
    by_cases h : s.length = 16 ∧ testAnchored digitsRegex s = true
    · simp [validateCard, h]
    · simp [validateCard, h]
  · rw [← key]
    by_cases h : s.length = 16 ∧ testAnchored digitsRegex s = true
    · simp [validateCard, h]
    · simp [validateCard, h]

/-- C9: `validateExpiry(s)` rejects with 'Formato de fecha inválido (MM/AA)'
exactly when `s` is not of the form two digits forming a month 01..12, a
slash, two digits, whatever the current time; so an ill-formed string is
neither accepted nor reported as expired. The strings '13/25', '00/25',
'1/25' and '12/2025' are rejected with that error. -/
theorem validateExpiry_format_error_iff (env : Env) (s : JSString) (t : Nat) :
    ((validateExpiry env s).callback t = .error ⟨"Formato de fecha inválido (MM/AA)"⟩
        ↔ ¬ IsExpiryFormat s)
    ∧ (validateExpiry env (js "13/25")).callback t
        = .error ⟨"Formato de fecha inválido (MM/AA)"⟩
    ∧ (validateExpiry env (js "00/25")).callback t
        = .error ⟨"Formato de fecha inválido (MM/AA)"⟩
    ∧ (validateExpiry env (js "1/25")).callback t
        = .error ⟨"Formato de fecha inválido (MM/AA)"⟩
    ∧ (validateExpiry env (js "12/2025")).callback t
        = .error ⟨"Formato de fecha inválido (MM/AA)"⟩ := by
  have bad : ∀ x : JSString, testAnchored expiryRegex x = false →
      (validateExpiry env x).callback t = .error ⟨"Formato de fecha inválido (MM/AA)"⟩ := by
    intro x hx
    simp [validateExpiry, hx]
  refine ⟨?_, bad _ (by decide), bad _ (by decide), bad _ (by decide), bad _ (by decide)⟩
  rw [← expiryRegex_test_iff]
  cases h : testAnchored expiryRegex s
  · simp [bad s h]
  · simp only [validateExpiry, h, Bool.not_true, Bool.false_eq_true, if_false, not_true_eq_false,
      iff_false]
    split <;> simp

theorem isStrWhiteSpace_digit (c : Nat) (h : IsDecimalDigit c) : isStrWhiteSpace c = false := by
  obtain ⟨h1, h2⟩ := h
  have h0 : cu '0' = 48 := rfl
  have h9 : cu '9' = 57 := rfl
  have : 48 ≤ c ∧ c ≤ 57 := ⟨by omega, by omega⟩
  simp only [isStrWhiteSpace, Bool.or_eq_false_iff, decide_eq_false_iff_not,
    Bool.and_eq_false_iff]
  omega

theorem digitValue_digit (c : Nat) (h : IsDecimalDigit c) :
    digitValue 10 c = some (digitNum c) := by
  obtain ⟨h1, h2⟩ := h
  have h0 : cu '0' = 48 := rfl
  have h9 : cu '9' = 57 := rfl
  have hlt : c - cu '0' < 10 := by omega
  simp [digitValue, digitNum, h1, h2, hlt]

theorem parseInt_two_digits (a b : Nat) (ha : IsDecimalDigit a) (hb : IsDecimalDigit b) :
    parseInt [a, b] = some ((10 * digitNum a + digitNum b : Nat) : Int) := by
  have h0 : cu '0' = 48 := rfl
  have h9 : cu '9' = 57 := rfl
  have hm : cu '-' = 45 := rfl
  have hp : cu '+' = 43 := rfl
  have hx : js "0x" = [48, 120] := by decide
  have hX : js "0X" = [48, 88] := by decide
  have hb1 : b ≠ 120 := by have := hb.2; omega
  have hb2 : b ≠ 88 := by have := hb.2; omega
  have ha1 : a ≠ 45 := by have := ha.1; omega
  have ha2 : a ≠ 43 := by have := ha.1; omega
  simp [parseInt, List.dropWhile, isStrWhiteSpace_digit a ha, hm, hp, hx, hX, ha1, ha2, hb1, hb2,
    readDigits, digitValue_digit a ha, digitValue_digit b hb]
  omega

theorem split_expiry (m1 m2 y1 y2 : Nat) (h1 : IsDecimalDigit m1) (h2 : IsDecimalDigit m2)
    (h3 : IsDecimalDigit y1) (h4 : IsDecimalDigit y2) :
    split (cu '/') [m1, m2, cu '/', y1, y2] = [[m1, m2], [y1, y2]] := by
  have h0 : cu '0' = 48 := rfl
  have hs : cu '/' = 47 := rfl
  have e1 : m1 ≠ 47 := by have := h1.1; omega
  have e2 : m2 ≠ 47 := by have := h2.1; omega
  have e3 : y1 ≠ 47 := by have := h3.1; omega
  have e4 : y2 ≠ 47 := by have := h4.1; omega
  simp [split, hs, e1, e2, e3, e4]

/-- What the expiry check decides on a well-formed `MM/YY`: it fulfils
exactly when midnight (local time) on the first day of month `MM` of year
`2000 + YY` is later than the current time, and otherwise rejects with
'La tarjeta ha expirado'. -/
theorem validateExpiry_wellformed (env : Env) (m1 m2 y1 y2 t : Nat)
    (h : IsExpiryFormat [m1, m2, cu '/', y1, y2]) :
    (validateExpiry env [m1, m2, cu '/', y1, y2]).callback t
      = if dateGt (newDate env.utc (some (2000 + ((10 * digitNum y1 + digitNum y2 : Nat) : Int)))
              (some (((10 * digitNum m1 + digitNum m2 : Nat) : Int) - 1)))
            (some (env.now t))
        then .ok "Fecha válida" else .error ⟨"La tarjeta ha expirado"⟩ := by
  have hre := (expiryRegex_test_iff _).mpr h
  obtain ⟨a, b, c, d, heq, ha, hb, -, -, hc, hd⟩ := h
  cases heq
  simp only [validateExpiry, hre, Bool.not_true, Bool.false_eq_true, if_false,
    split_expiry _ _ _ _ ha hb hc hd, List.get?, parseIntOpt, parseInt_two_digits _ _ ha hb,
    parseInt_two_digits _ _ hc hd, Option.map]

theorem validateExpiry_wellformed_witness :
    IsExpiryFormat [cu '0', cu '1', cu '/', cu '2', cu '4']
    ∧ (validateExpiry envMidJanuary2024 [cu '0', cu '1', cu '/', cu '2', cu '4']).callback 100
      = if dateGt (newDate envMidJanuary2024.utc
              (some (2000 + ((10 * digitNum (cu '2') + digitNum (cu '4') : Nat) : Int)))
              (some (((10 * digitNum (cu '0') + digitNum (cu '1') : Nat) : Int) - 1)))
            (some (envMidJanuary2024.now 100))
        then .ok "Fecha válida" else .error ⟨"La tarjeta ha expirado"⟩ :=
  have hf : IsExpiryFormat [cu '0', cu '1', cu '/', cu '2', cu '4'] :=
    ⟨_, _, _, _, rfl, by decide, by decide, by decide, by decide, by decide, by decide⟩
  ⟨hf, validateExpiry_wellformed envMidJanuary2024 _ _ _ _ 100 hf⟩

/-- C1: a card with expiry 01/24 checked at 2024-01-15T00:00Z (UTC time zone),
an instant during January 2024. The first day of the following month,
1 February 2024, is strictly later than that instant, and 1 January 2024 is
not; `validateExpiry` compares with 1 January and rejects the card with
'La tarjeta ha expirado'. -/
theorem validateExpiry_rejects_during_expiry_month :
    envMidJanuary2024.now 100 = 1705276800000
    ∧ newDate envMidJanuary2024.utc (some 2024) (some 0) = some 1704067200000
    ∧ newDate envMidJanuary2024.utc (some 2024) (some 1) = some 1706745600000
    ∧ dateGt (newDate envMidJanuary2024.utc (some 2024) (some 1))
        (some (envMidJanuary2024.now 100)) = true
    ∧ (validateExpiry envMidJanuary2024 (js "01/24")).callback 100
        = .error ⟨"La tarjeta ha expirado"⟩ := by
  refine ⟨by decide, by decide, by decide, by decide, ?_⟩
  rfl

/-! ## The service worker -/

/-- The promise the `install` listener hands to `event.waitUntil` never
rejects: the final `.catch` turns every failure into a console line. -/
theorem installListener_never_rejects (origin : Origin) (st : SWState) :
    (installListener origin st).2 = .ok () := by
  simp only [installListener, cachesOpen, Chain.andThen, cacheAddAll, skipWaiting]
  split <;> rfl

/-- C2: install with an origin whose style sheet cannot be fetched. Populating
the cache fails with 'TypeError: Failed to fetch', yet the promise handed to
`event.waitUntil` is fulfilled, not rejected: the error only reaches the
console. `skipWaiting` is not called and the opened cache stays empty. -/
theorem installListener_swallows_population_failure :
    fetchAllOk originWithoutStyle
        (CACHE_FILES.map (fun u => ({ method := "GET", url := u, headers := [] } : Request)))
      = .error ⟨"TypeError: Failed to fetch"⟩
    ∧ (installListener originWithoutStyle freshSW).2 = .ok ()
    ∧ (installListener originWithoutStyle freshSW).1.skipWaitingCalled = false
    ∧ (installListener originWithoutStyle freshSW).1.console
        = ["SW: Instalando...", "Error al cachear: TypeError: Failed to fetch"]
    ∧ (installListener originWithoutStyle freshSW).1.caches = [(CACHE_NAME, [])] := by
  refine ⟨by rfl, by rfl, by rfl, by decide, by decide⟩

theorem foldl_deleteIfOld_caches (ks : List String) (st : SWState) :
    (ks.foldl deleteIfOld st).caches
      = st.caches.filter (fun e => decide (e.1 = CACHE_NAME) || decide (e.1 ∉ ks)) := by
  induction ks generalizing st with
  | nil => simp
  | cons k ks ih =>
    rw [List.foldl_cons, ih]
    by_cases hk : k = CACHE_NAME
    · subst hk
      simp only [deleteIfOld, ne_eq, not_true_eq_false, if_false]
      apply List.filter_congr
      intro e _
      by_cases he : e.1 = CACHE_NAME <;> simp [he]
    · simp only [deleteIfOld, ne_eq, hk, not_false_eq_true, if_true, cachesDelete, SWState.log,
        List.filter_filter]
      apply List.filter_congr
      intro e _
      by_cases he : e.1 = CACHE_NAME
      · have h1 : e.1 ≠ k := fun h => hk (h ▸ he)
        have h2 : ¬ CACHE_NAME = k := fun h => hk h.symm
        simp [he, h2]
      · by_cases hek : e.1 = k <;> simp [he, hek, hk]

theorem activateListener_caches (st : SWState) :
    (activateListener st).1.caches = st.caches.filter (fun e => decide (e.1 = CACHE_NAME)) := by
  simp only [activateListener, cachesKeys, Chain.andThen, clientsClaim, foldl_deleteIfOld_caches,
    SWState.log]
  apply List.filter_congr
  intro e he
  have : e.1 ∈ st.caches.map (fun e => e.1) := List.mem_map_of_mem _ he
  simp [this]

theorem cacheNamed_filter_self (cs : CacheStorage) (name : String) :
    cacheNamed (cs.filter (fun e => decide (e.1 = name))) name = cacheNamed cs name := by
  simp only [cacheNamed, List.find?_filter]
  congr 1
  apply congrArg (fun p => List.find? p cs)
  funext e
  simp

/-- C5: whatever caches exist, when the `activate` listener has completed
(its promise is fulfilled and the clients are claimed) every cache left bears
the name `CACHE_NAME`, no cache of any other name is left, and the cache named
`CACHE_NAME` is there exactly as before, entries unchanged. From the stores
`payment-pwa-v0`, `payment-pwa-beta` and `payment-pwa-v1` only the last remains. -/
theorem activateListener_keeps_only_current (st : SWState) :
    (activateListener st).2 = .ok ()
    ∧ (activateListener st).1.clientsClaimed = true
    ∧ (∀ e ∈ (activateListener st).1.caches, e.1 = CACHE_NAME)
    ∧ (∀ name, name ≠ CACHE_NAME → cacheNamed (activateListener st).1.caches name = none)
    ∧ cacheNamed (activateListener st).1.caches CACHE_NAME = cacheNamed st.caches CACHE_NAME
    ∧ (activateListener st).1.caches = st.caches.filter (fun e => decide (e.1 = CACHE_NAME))
    ∧ (activateListener
          { freshSW with
            caches := [("payment-pwa-v0", [(pageRequest, stalePage)]),
                       ("payment-pwa-beta", []),
                       ("payment-pwa-v1", [(pageRequest, currentPage)])] }).1.caches
        = [("payment-pwa-v1", [(pageRequest, currentPage)])] := by
  refine ⟨rfl, rfl, ?_, ?_, ?_, activateListener_caches st, by decide⟩
  · intro e he
    rw [activateListener_caches] at he
    simpa using (List.mem_filter.mp he).2
  · intro name hname
    rw [activateListener_caches]
    simp only [cacheNamed, List.find?_filter, Option.map_eq_none', List.find?_eq_none]
    intro e _
    simp only [Bool.and_eq_true, decide_eq_true_eq, not_and]
    intro h1 h2
    exact hname (h2 ▸ h1)
  · rw [activateListener_caches, cacheNamed_filter_self]

theorem fetchListener_hit (origin : Origin) (st : SWState) (req : Request) (p : Response)
    (hget : req.method = "GET")
    (hp : st.caches.findSome? (fun e => cacheMatch e.2 req) = some p) :
    fetchListener origin st req = (st.log ("Desde cache: " ++ req.url), some (.ok p)) := by
  simp [fetchListener, hget, cachesMatch, Chain.andThen, hp]

theorem fetchListener_miss (origin : Origin) (st : SWState) (req : Request)
    (hget : req.method = "GET")
    (hp : st.caches.findSome? (fun e => cacheMatch e.2 req) = none) :
    fetchListener origin st req
      = match origin req with
        | .ok resp =>
          if resp.status = 200 ∧ resp.type = "basic" then
            ({ (st.log ("Desde red: " ++ req.url)) with
                originCalls := st.originCalls ++ [req]
                writeBacks := st.writeBacks ++ [(req, resp)] }, some (.ok resp))
          else
            ({ (st.log ("Desde red: " ++ req.url)) with
                originCalls := st.originCalls ++ [req] }, some (.ok resp))
        | .error err =>
          (({ (st.log ("Desde red: " ++ req.url)) with
                originCalls := st.originCalls ++ [req] } : SWState).log
              ("Error fetch: " ++ err.message), some (.error err)) := by
  simp only [fetchListener, hget, ne_eq, not_true_eq_false, if_false, cachesMatch, Chain.andThen,
    hp, fetchOrigin, SWState.log, Chain.catch]
  cases origin req with
  | error err => rfl
  | ok resp =>
    by_cases h : resp.status = 200 ∧ resp.type = "basic"
    · simp only [h, and_self, if_true]
    · simp only [h, if_false]

/-- C3 as stated fails: with a stale store created before the active one
and holding the page, the request for the page has an entry in the active
store (`currentPage`), yet the `fetch` listener responds with the stale
store's payload (`stalePage`), which is a different payload. -/
theorem fetchListener_serves_earlier_store :
    pageRequest.method = "GET"
    ∧ (cacheNamed staleFirstSW.caches CACHE_NAME).bind (fun c => cacheMatch c pageRequest)
        = some currentPage
    ∧ (fetchListener healthyOrigin staleFirstSW pageRequest).2 = some (.ok stalePage)
    ∧ stalePage ≠ currentPage := by
  refine ⟨rfl, by decide, by rfl, by decide⟩

/-- C3, amended: for a GET request that has an entry `r` in the active store
(the cache named `CACHE_NAME`), whatever the other stores hold, the `fetch`
listener responds with a stored payload `p` and makes no origin call; no
store changes and no write-back starts. `p` is the entry of the first store,
in creation order, that has one for the request; it is the active store's
`r` whenever no store created before the active one has an entry for it. -/
theorem fetchListener_cache_hit (origin : Origin) (st : SWState) (req : Request)
    (pre post : CacheStorage) (c : Cache) (r : Response)
    (hget : req.method = "GET")
    (hst : st.caches = pre ++ (CACHE_NAME, c) :: post)
    (hr : cacheMatch c req = some r) :
    ∃ p, (fetchListener origin st req).2 = some (.ok p)
      ∧ (fetchListener origin st req).1.originCalls = st.originCalls
      ∧ (fetchListener origin st req).1.caches = st.caches
      ∧ (fetchListener origin st req).1.writeBacks = st.writeBacks
      ∧ (∃ before name store after, st.caches = before ++ (name, store) :: after
          ∧ (∀ e ∈ before, cacheMatch e.2 req = none) ∧ cacheMatch store req = some p)
      ∧ ((∀ e ∈ pre, cacheMatch e.2 req = none) → p = r) := by
  have hsome : (st.caches.findSome? (fun e => cacheMatch e.2 req)).isSome := by
    rw [hst, List.findSome?_append]
    cases List.findSome? (fun e => cacheMatch e.2 req) pre <;> simp [List.findSome?, hr]
  obtain ⟨p, hp⟩ := Option.isSome_iff_exists.mp hsome
  refine ⟨p, ?_, ?_, ?_, ?_, ?_, ?_⟩
  · rw [fetchListener_hit origin st req p hget hp]
  · rw [fetchListener_hit origin st req p hget hp]; rfl
  · rw [fetchListener_hit origin st req p hget hp]; rfl
  · rw [fetchListener_hit origin st req p hget hp]; rfl
  · obtain ⟨l1, a, l2, h1, h2, h3⟩ := List.findSome?_eq_some_iff.mp hp
    exact ⟨l1, a.1, a.2, l2, h1, h3, h2⟩
  · intro hpre
    have hnone : List.findSome? (fun e => cacheMatch e.2 req) pre = none :=
      List.findSome?_eq_none_iff.mpr hpre
    rw [hst, List.findSome?_append, hnone] at hp
    simp only [Option.none_or, List.findSome?, hr] at hp
    exact (Option.some.inj hp).symm

theorem fetchListener_cache_hit_witness :
    pageRequest.method = "GET"
    ∧ staleFirstSW.caches
        = [("payment-pwa-v0", [(pageRequest, stalePage)])]
            ++ (CACHE_NAME, [(pageRequest, currentPage)]) :: []
    ∧ cacheMatch [(pageRequest, currentPage)] pageRequest = some currentPage
    ∧ ∃ p, (fetchListener healthyOrigin staleFirstSW pageRequest).2 = some (.ok p)
      ∧ (fetchListener healthyOrigin staleFirstSW pageRequest).1.originCalls
          = staleFirstSW.originCalls
      ∧ (fetchListener healthyOrigin staleFirstSW pageRequest).1.caches = staleFirstSW.caches
      ∧ (fetchListener healthyOrigin staleFirstSW pageRequest).1.writeBacks
          = staleFirstSW.writeBacks
      ∧ (∃ before name store after, staleFirstSW.caches = before ++ (name, store) :: after
          ∧ (∀ e ∈ before, cacheMatch e.2 pageRequest = none)
          ∧ cacheMatch store pageRequest = some p)
      ∧ ((∀ e ∈ [("payment-pwa-v0", [(pageRequest, stalePage)])],
            cacheMatch e.2 pageRequest = none) → p = currentPage) :=
  ⟨rfl, rfl, by decide,
    fetchListener_cache_hit healthyOrigin staleFirstSW pageRequest
      [("payment-pwa-v0", [(pageRequest, stalePage)])] [] [(pageRequest, currentPage)]
      currentPage rfl rfl (by decide)⟩

theorem cacheNamed_setCache (cs : CacheStorage) (name : String) (c : Cache)
    (h : (cacheNamed cs name).isSome) : cacheNamed (setCache cs name c) name = some c := by
  induction cs with
  | nil => simp [cacheNamed] at h
  | cons e cs ih =>
    by_cases he : e.1 = name
    · simp [cacheNamed, setCache, he]
    · have h2 : (cacheNamed cs name).isSome := by
        simpa [cacheNamed, List.find?, he] using h
      have h3 := ih h2
      simp only [cacheNamed, setCache] at h3
      simp only [cacheNamed, setCache, List.map_cons, he, if_false, List.find?, decide_False]
      exact h3

theorem cacheNamed_open (cs : CacheStorage) (name : String) :
    (cacheNamed (if (cacheNamed cs name).isSome then cs else cs ++ [(name, [])]) name).isSome := by
  by_cases h : (cacheNamed cs name).isSome
  · simp [h]
  · simp only [h, Bool.false_eq_true, if_false]
    have hn : List.find? (fun e => decide (e.1 = name)) cs = none := by
      cases hf : List.find? (fun e => decide (e.1 = name)) cs with
      | none => rfl
      | some x => simp [cacheNamed, hf] at h
    simp [cacheNamed, List.find?_append, hn]

theorem requestMatches_self (req : Request) (resp : Response)
    (hget : req.method = "GET") (hvary : "*" ∉ resp.vary) :
    requestMatches req req resp = true := by
  simp only [requestMatches, hget, decide_True, Bool.true_and, Bool.and_true,
    List.all_eq_true, Bool.and_eq_true, decide_eq_true_eq]
  intro f hf
  exact fun h => hvary (h ▸ hf)

theorem cacheMatch_after_put (c : Cache) (req : Request) (resp : Response)
    (hget : req.method = "GET") (hvary : "*" ∉ resp.vary) :
    cacheMatch (c.filter (fun e => !requestMatches req e.1 e.2) ++ [(req, resp)]) req
      = some resp := by
  have hn : List.find? (fun e => requestMatches req e.1 e.2)
      (c.filter (fun e => !requestMatches req e.1 e.2)) = none := by
    rw [List.find?_eq_none]
    intro e he
    have := (List.mem_filter.mp he).2
    simpa using this
  simp only [cacheMatch, List.find?_append, hn, Option.none_or, List.find?,
    requestMatches_self req resp hget hvary, Option.map_some']

theorem writeBack_stores (cs : CacheStorage) (req : Request) (resp : Response)
    (hget : req.method = "GET") (hstatus : resp.status = 200) (hvary : "*" ∉ resp.vary) :
    (cacheNamed (writeBack false cs (req, resp)) CACHE_NAME).bind (fun c => cacheMatch c req)
      = some resp := by
  have hopen := cacheNamed_open cs CACHE_NAME
  simp only [writeBack, cachePut, hget, ne_eq, not_true_eq_false, if_false, hstatus, hvary,
    Bool.false_eq_true]
  rw [if_neg (by decide)]
  simp only [cacheNamed_setCache _ _ _ hopen, Option.some_bind]
  exact cacheMatch_after_put _ req resp hget hvary

theorem writeBack_refused (quota : Bool) (cs : CacheStorage) (req : Request) (resp : Response)
    (h : "*" ∈ resp.vary ∨ quota = true) (hget : req.method = "GET")
    (hstatus : resp.status = 200) :
    writeBack quota cs (req, resp)
      = if (cacheNamed cs CACHE_NAME).isSome then cs else cs ++ [(CACHE_NAME, [])] := by
  simp only [writeBack, cachePut, hget, ne_eq, not_true_eq_false, if_false, hstatus]
  rw [if_neg (by decide)]
  by_cases hv : "*" ∈ resp.vary
  · simp only [hv, if_true]
  · have hq : quota = true := h.resolve_left hv
    simp only [hv, if_false, hq, if_true]

/-- C4 as stated fails: a GET request with no entry in any store, answered by
the origin with status 200, type 'basic' and the header `Vary: *`. The
listener returns the response and starts the write-back, but `cache.put`
refuses such a response: when every started write-back has run to its end
the active store exists and has no entry for the request. -/
theorem fetchListener_write_back_refused :
    pageRequest.method = "GET"
    ∧ (∀ e ∈ freshSW.caches, cacheMatch e.2 pageRequest = none)
    ∧ varyStarOrigin pageRequest
        = .ok { status := 200, type := "basic", body := "content of ./index.html",
                vary := ["*"] }
    ∧ (fetchListener varyStarOrigin freshSW pageRequest).1.writeBacks
        = [(pageRequest, { status := 200, type := "basic", body := "content of ./index.html",
                           vary := ["*"] })]
    ∧ (completeWriteBacks (fetchListener varyStarOrigin freshSW pageRequest).1).writeBacks = []
    ∧ (completeWriteBacks (fetchListener varyStarOrigin freshSW pageRequest).1).caches
        = [(CACHE_NAME, [])]
    ∧ (cacheNamed (completeWriteBacks (fetchListener varyStarOrigin freshSW pageRequest).1).caches
          CACHE_NAME).bind (fun c => cacheMatch c pageRequest) = none := by
  refine ⟨rfl, ?_, by rfl, by decide, by rfl, by decide, by decide⟩
  intro e he
  cases he

/-- C4, amended: for a GET request with no entry in any store, the `fetch`
listener makes exactly one origin call, for that request, and changes no
store itself. If the origin responds, the listener responds with that
response; when the response has status 200 and type 'basic' one write-back of
it is started. Once the started write-backs have completed, the cache named
`CACHE_NAME` maps the request to that response provided the response's `Vary`
header does not list `*` and the storage quota is not exceeded; otherwise
`cache.put` rejects and the stores are as they would be without this
write-back, apart from `CACHE_NAME` having been opened. For any other
response no write-back is started, so the stores stay as they are. If the
origin call fails with `err`, the listener's promise rejects with the same
`err`, and again nothing is written. -/
theorem fetchListener_cache_miss (origin : Origin) (st : SWState) (req : Request)
    (hget : req.method = "GET")
    (hmiss : ∀ e ∈ st.caches, cacheMatch e.2 req = none) :
    (fetchListener origin st req).1.originCalls = st.originCalls ++ [req]
    ∧ (fetchListener origin st req).1.caches = st.caches
    ∧ (∀ resp, origin req = .ok resp →
        (fetchListener origin st req).2 = some (.ok resp)
        ∧ ((resp.status = 200 ∧ resp.type = "basic") →
            (fetchListener origin st req).1.writeBacks = st.writeBacks ++ [(req, resp)]
            ∧ (("*" ∉ resp.vary ∧ st.quotaExceeded = false) →
                (cacheNamed (completeWriteBacks (fetchListener origin st req).1).caches
                  CACHE_NAME).bind (fun c => cacheMatch c req) = some resp)
            ∧ (("*" ∈ resp.vary ∨ st.quotaExceeded = true) →
                (completeWriteBacks (fetchListener origin st req).1).caches
                  = (cachesOpen CACHE_NAME (completeWriteBacks st)).1.caches))
        ∧ (¬ (resp.status = 200 ∧ resp.type = "basic") →
            (fetchListener origin st req).1.writeBacks = st.writeBacks
            ∧ (completeWriteBacks (fetchListener origin st req).1).caches
                = (completeWriteBacks st).caches))
    ∧ (∀ err, origin req = .error err →
        (fetchListener origin st req).2 = some (.error err)
        ∧ (fetchListener origin st req).1.writeBacks = st.writeBacks
        ∧ (completeWriteBacks (fetchListener origin st req).1).caches
            = (completeWriteBacks st).caches) := by
  have hnone : st.caches.findSome? (fun e => cacheMatch e.2 req) = none :=
    List.findSome?_eq_none_iff.mpr hmiss
  have hfl := fetchListener_miss origin st req hget hnone
  cases horigin : origin req with
  | error err =>
    rw [horigin] at hfl
    simp only [] at hfl
    rw [hfl]
    refine ⟨rfl, rfl, ?_, ?_⟩
    · intro resp h
      cases h
    · intro e h
      cases h
      exact ⟨rfl, rfl, rfl⟩
  | ok resp =>
    rw [horigin] at hfl
    simp only [] at hfl
    by_cases hok : resp.status = 200 ∧ resp.type = "basic"
    · rw [if_pos hok] at hfl
      rw [hfl]
      refine ⟨rfl, rfl, ?_, ?_⟩
      · intro r h
        cases h
        refine ⟨rfl, fun _ => ⟨rfl, ?_, ?_⟩, fun hno => absurd hok hno⟩
        · rintro ⟨hvary, hquota⟩
          simp only [completeWriteBacks, SWState.log, List.foldl_append, List.foldl_cons,
            List.foldl_nil, hquota]
          exact writeBack_stores _ req resp hget hok.1 hvary
        · intro hrefused
          simp only [completeWriteBacks, SWState.log, List.foldl_append, List.foldl_cons,
            List.foldl_nil, cachesOpen]
          exact writeBack_refused _ _ req resp hrefused hget hok.1
      · intro err h
        cases h
    · rw [if_neg hok] at hfl
      rw [hfl]
      refine ⟨rfl, rfl, ?_, ?_⟩
      · intro r h
        cases h
        exact ⟨rfl, fun hyes => absurd hyes hok, fun _ => ⟨rfl, rfl⟩⟩
      · intro err h
        cases h

theorem fetchListener_cache_miss_witness :
    pageRequest.method = "GET"
    ∧ (∀ e ∈ freshSW.caches, cacheMatch e.2 pageRequest = none)
    ∧ healthyOrigin pageRequest
        = .ok { status := 200, type := "basic", body := "content of ./index.html", vary := [] }
    ∧ (fetchListener healthyOrigin freshSW pageRequest).1.originCalls = [pageRequest]
    ∧ (fetchListener healthyOrigin freshSW pageRequest).2
        = some (.ok { status := 200, type := "basic", body := "content of ./index.html",
                      vary := [] })
    ∧ (cacheNamed (completeWriteBacks (fetchListener healthyOrigin freshSW pageRequest).1).caches
          CACHE_NAME).bind (fun c => cacheMatch c pageRequest)
        = some { status := 200, type := "basic", body := "content of ./index.html", vary := [] }
    ∧ (completeWriteBacks (fetchListener healthyOrigin freshSW pageRequest).1).caches
        = [(CACHE_NAME,
            [(pageRequest,
              { status := 200, type := "basic", body := "content of ./index.html",
                vary := [] })])] :=
  have hmiss : ∀ e ∈ freshSW.caches, cacheMatch e.2 pageRequest = none := by
    intro e he
    cases he
  have h := fetchListener_cache_miss healthyOrigin freshSW pageRequest rfl hmiss
  ⟨rfl, hmiss, by rfl, h.1, (h.2.2.1 _ (by rfl)).1,
    ((h.2.2.1 _ (by rfl)).2.1 ⟨rfl, rfl⟩).2.1 ⟨by decide, rfl⟩, by decide⟩

/-! ## The promise pipeline -/

theorem promiseAll_four (start d : Nat) (k1 k2 k3 k4 : Task String)
    (h1 : k1.delay = d) (h2 : k2.delay = d) (h3 : k3.delay = d) (h4 : k4.delay = d) :
    (promiseAll start [k1, k2, k3, k4]).promise =
      match k1.callback (start + d), k2.callback (start + d), k3.callback (start + d),
        k4.callback (start + d) with
      | .error e, _, _, _ => .settled (start + d) (.error e)
      | .ok _, .error e, _, _ => .settled (start + d) (.error e)
      | .ok _, .ok _, .error e, _ => .settled (start + d) (.error e)
      | .ok _, .ok _, .ok _, .error e => .settled (start + d) (.error e)
      | .ok a, .ok b, .ok c, .ok v => .settled (start + d) (.ok [a, b, c, v]) := by
  simp only [promiseAll, List.enum, List.enumFrom, fireOrder, List.insertionSort,
    List.orderedInsert, h1, h2, h3, h4, le_refl, if_true, List.foldl_cons, List.foldl_nil, allStep]
  rcases k1.callback (start + d) with e1 | v1 <;>
  rcases k2.callback (start + d) with e2 | v2 <;>
  rcases k3.callback (start + d) with e3 | v3 <;>
  rcases k4.callback (start + d) with e4 | v4 <;>
  simp [Gather.record, PromiseState.settle, List.reduceOption]

theorem validationStage_promise (env : Env) (data : TransactionData) :
    (validationStage env data).promise =
      match (validateConnection env).callback 100, (validateCard data.cardNumber).callback 100,
        (validateCVV data.cvv).callback 100, (validateExpiry env data.expiryDate).callback 100 with
      | .error e, _, _, _ => .settled 100 (.error e)
      | .ok _, .error e, _, _ => .settled 100 (.error e)
      | .ok _, .ok _, .error e, _ => .settled 100 (.error e)
      | .ok _, .ok _, .ok _, .error e => .settled 100 (.error e)
      | .ok a, .ok b, .ok c, .ok v => .settled 100 (.ok [a, b, c, v]) := by
  have h := promiseAll_four 0 100 (validateConnection env) (validateCard data.cardNumber)
    (validateCVV data.cvv) (validateExpiry env data.expiryDate) rfl rfl rfl rfl
  simp only [Nat.zero_add] at h
  exact h

theorem validationStage_started (env : Env) (data : TransactionData) :
    (validationStage env data).started
      = [.validateConnection, .validateCard, .validateCVV, .validateExpiry] := rfl

theorem timerDelay_of_lt (ms : Nat) (h : ms < 2147483648) : timerDelay ms = ms := by
  have hm : ms % 4294967296 = ms := Nat.mod_eq_of_lt (by omega)
  simp only [timerDelay, hm, h, if_true]

theorem processingRace_promise (env : Env) (data : TransactionData) (start d : Nat) :
    (processingRace env data start d).promise =
      if timerDelay d < 2000 then
        .settled (start + timerDelay d) (.error ⟨"Timeout: El servidor tardó demasiado"⟩)
      else .settled (start + 2000) ((simulateProcessing env data).callback (start + 2000)) := by
  have hd1 : (simulateProcessing env data).delay = 2000 := rfl
  have hd2 : (simulateTimeout d).delay = timerDelay d := rfl
  have hc : ∀ t, (simulateTimeout d).callback t
      = .error ⟨"Timeout: El servidor tardó demasiado"⟩ := fun _ => rfl
  by_cases h : timerDelay d < 2000
  · have h' : ¬ 2000 ≤ timerDelay d := by omega
    simp only [processingRace, promiseRace, List.enum, List.enumFrom, fireOrder,
      List.insertionSort, List.orderedInsert, hd1, hd2, h', h, if_false, if_true,
      List.foldl_cons, List.foldl_nil, PromiseState.settle, hc]
  · have h' : 2000 ≤ timerDelay d := by omega
    simp only [processingRace, promiseRace, List.enum, List.enumFrom, fireOrder,
      List.insertionSort, List.orderedInsert, hd1, hd2, h', h, if_false, if_true,
      List.foldl_cons, List.foldl_nil, PromiseState.settle]

theorem promiseAllSettled_postTasks (env : Env) (start : Nat) (r : PaymentResult) :
    (promiseAllSettled start (postTaskList env r)).promise =
      .settled (start + 600) (.ok
        [(sendEmail env r).callback (start + 500), (updateInventory r).callback (start + 300),
         (logTransaction r).callback (start + 400),
         (notifyWarehouse env r).callback (start + 600)]) := by
  have h1 : (sendEmail env r).delay = 500 := rfl
  have h2 : (updateInventory r).delay = 300 := rfl
  have h3 : (logTransaction r).delay = 400 := rfl
  have h4 : (notifyWarehouse env r).delay = 600 := rfl
  simp [promiseAllSettled, postTaskList, List.enum, List.enumFrom, fireOrder,
    List.insertionSort, List.orderedInsert, h1, h2, h3, h4, allSettledStep, Gather.record,
    PromiseState.settle, List.reduceOption]

theorem executePostTasks_eq (env : Env) (start : Nat) (r : PaymentResult) :
    executePostTasks env start r =
      { started := [.sendEmail, .updateInventory, .logTransaction, .notifyWarehouse]
        promise := .settled (start + 600) (.ok
          { toPaymentResult := r
            postTasks :=
              { total := 4
                successful :=
                  (((postTaskList env r).map (fun k => k.callback (start + k.delay))).filter
                    isFulfilled).length } }) } := by
  have hs : (promiseAllSettled start (postTaskList env r)).started
      = [.sendEmail, .updateInventory, .logTransaction, .notifyWarehouse] := rfl
  simp only [executePostTasks, Run.andThen, promiseAllSettled_postTasks, hs,
    List.append_nil, List.length_cons, List.length_nil]
  rfl

theorem processPayment_of_validation_error (env : Env) (data : TransactionData) (t : Nat)
    (e : JSError) (h : (validationStage env data).promise = .settled t (.error e)) :
    processPayment env data
      = { started := [.validateConnection, .validateCard, .validateCVV, .validateExpiry]
          promise := .settled t (.error e) } := by
  simp only [processPayment, Run.andThen, h, validationStage_started]

theorem processPayment_of_validation_ok (env : Env) (data : TransactionData) (t : Nat)
    (vs : List String) (h : (validationStage env data).promise = .settled t (.ok vs)) :
    ∃ final, processPayment env data
      = { started := [.validateConnection, .validateCard, .validateCVV, .validateExpiry,
            .simulateProcessing, .simulateTimeout,
            .sendEmail, .updateInventory, .logTransaction, .notifyWarehouse]
          promise := .settled (t + 2000 + 600) (.ok final) } := by
  have hr : (processingRace env data t 3000).promise
      = .settled (t + 2000) ((simulateProcessing env data).callback (t + 2000)) := by
    rw [processingRace_promise, if_neg (by decide)]
  have hs : (processingRace env data t 3000).started
      = [.simulateProcessing, .simulateTimeout] := rfl
  have hc : ∃ r, (simulateProcessing env data).callback (t + 2000) = .ok r := ⟨_, rfl⟩
  obtain ⟨r, hcr⟩ := hc
  rw [hcr] at hr
  simp only [processPayment, Run.andThen, h, validationStage_started, hr, hs,
    executePostTasks_eq, List.cons_append, List.nil_append]
  exact ⟨_, rfl⟩

theorem validation_error_messages (env : Env) (data : TransactionData) (t : Nat) (e : JSError)
    (h : (validationStage env data).promise = .settled t (.error e)) :
    e.message = "No hay conexión a internet"
      ∨ e.message = "El número de tarjeta debe tener 16 dígitos"
      ∨ e.message = "El CVV debe tener 3 dígitos"
      ∨ e.message = "Formato de fecha inválido (MM/AA)"
      ∨ e.message = "La tarjeta ha expirado" := by
  rw [validationStage_promise] at h
  have c1 : ∀ x, (validateConnection env).callback 100 = .error x →
      x.message = "No hay conexión a internet" := by
    intro x hx
    simp only [validateConnection] at hx
    split at hx
    · cases hx
    · cases hx; rfl
  have c2 : ∀ x, (validateCard data.cardNumber).callback 100 = .error x →
      x.message = "El número de tarjeta debe tener 16 dígitos" := by
    intro x hx
    simp only [validateCard] at hx
    split at hx
    · cases hx
    · cases hx; rfl
  have c3 : ∀ x, (validateCVV data.cvv).callback 100 = .error x →
      x.message = "El CVV debe tener 3 dígitos" := by
    intro x hx
    simp only [validateCVV] at hx
    split at hx
    · cases hx
    · cases hx; rfl
  have c4 : ∀ x, (validateExpiry env data.expiryDate).callback 100 = .error x →
      x.message = "Formato de fecha inválido (MM/AA)" ∨ x.message = "La tarjeta ha expirado" := by
    intro x hx
    simp only [validateExpiry] at hx
    split at hx
    · cases hx; exact Or.inl rfl
    · split at hx
      · cases hx
      · cases hx; exact Or.inr rfl
  rcases h1 : (validateConnection env).callback 100 with e1 | v1 <;>
  rcases h2 : (validateCard data.cardNumber).callback 100 with e2 | v2 <;>
  rcases h3 : (validateCVV data.cvv).callback 100 with e3 | v3 <;>
  rcases h4 : (validateExpiry env data.expiryDate).callback 100 with e4 | v4 <;>
  simp only [h1, h2, h3, h4, PromiseState.settled.injEq, Except.error.injEq, reduceCtorEq,
    and_false] at h <;>
  obtain ⟨-, rfl⟩ := h
  all_goals first
    | exact Or.inl (c1 _ h1)
    | exact Or.inr (Or.inl (c2 _ h2))
    | exact Or.inr (Or.inr (Or.inl (c3 _ h3)))
    | exact Or.inr (Or.inr (Or.inr (c4 _ h4)))

/-- C7: for every processing result, every start time and every outcome of
the two random draws, `executePostTasks` settles fulfilled (at 600 ms, when
the slowest post-task has settled): its value has every field of the input
result unchanged, `postTasks.total = 4` and `postTasks.successful` equal to
the number of the four post-tasks that fulfilled, a number between 0 and 4
(2 for the two tasks that cannot fail, plus one for each of `sendEmail` and
`notifyWarehouse` that succeeded). -/
theorem executePostTasks_never_fails (env : Env) (start : Nat) (r : PaymentResult) :
    ∃ n, (executePostTasks env start r).promise
        = .settled (start + 600)
            (.ok { toPaymentResult := r, postTasks := { total := 4, successful := n } })
      ∧ n = (((postTaskList env r).map (fun k => k.callback (start + k.delay))).filter
              isFulfilled).length
      ∧ n = 2 + (if env.emailRandom > 1 / 10 then 1 else 0)
              + (if env.warehouseRandom > 2 / 10 then 1 else 0)
      ∧ 0 ≤ n ∧ n ≤ 4 := by
  refine ⟨_, by rw [executePostTasks_eq], rfl, ?_, Nat.zero_le _, ?_⟩
  · simp only [postTaskList, sendEmail, updateInventory, logTransaction, notifyWarehouse,
      List.map_cons, List.map_nil]
    by_cases h1 : env.emailRandom > 1 / 10 <;> by_cases h2 : env.warehouseRandom > 2 / 10 <;>
      simp only [h1, h2, if_true, if_false, isFulfilled, List.filter, List.length]
  · exact le_trans (List.length_filter_le _ _) (by simp [postTaskList])

/-- C10 as stated fails: the deadline `d = 2147483648` is greater than 2000,
but `setTimeout` turns it into a negative 32-bit delay, which counts as 0;
the deadline timer fires first and the race rejects at once with the Timeout
error instead of settling with the work task's result. -/
theorem processingRace_huge_deadline_times_out :
    2000 < 2147483648
    ∧ (simulateTimeout 2147483648).delay = 0
    ∧ (processingRace envMidJanuary2024 (sampleData "12/30") 0 2147483648).promise
        = .settled 0 (.error ⟨"Timeout: El servidor tardó demasiado"⟩) := by
  refine ⟨by decide, by decide, ?_⟩
  rw [processingRace_promise]
  rfl

/-- C10, amended: the race of the work task (delay 2000) against
`simulateTimeout(d)`, started at any time, is decided by the delay the
deadline timer really waits, `timerDelay d` (the 32-bit signed value of `d`,
0 when negative): below 2000 the race settles at the deadline with the Timeout
error, otherwise (a tie included, the work timer being set first) after
2000 ms with the work task's fulfilled result, which has `success = true` and
the input's amount and customer name. So for every `d` with
`2000 < d < 2147483648` the work result wins, and for every `d < 2000` the
Timeout error. Once settled, the race's promise is unchanged by any further
settlement, so the loser's late outcome is never observed. With the deadline
3000 that `processPayment` uses, its promise never rejects with the Timeout
error. -/
theorem processingRace_first_to_settle_wins (env : Env) (data : TransactionData)
    (start d : Nat) :
    (processingRace env data start d).promise
        = (if timerDelay d < 2000 then
            .settled (start + timerDelay d) (.error ⟨"Timeout: El servidor tardó demasiado"⟩)
          else
            .settled (start + 2000) (.ok
              { success := true
                transactionId :=
                  "TXN-" ++ toString (env.now (start + 2000)) ++ "-" ++ env.txnSuffix
                amount := data.amount
                customerName := data.customerName
                timestamp := env.now (start + 2000)
                message := "Pago procesado exitosamente" }))
    ∧ (2000 < d → d < 2147483648 →
        (processingRace env data start d).promise
          = .settled (start + 2000) (.ok
              { success := true
                transactionId :=
                  "TXN-" ++ toString (env.now (start + 2000)) ++ "-" ++ env.txnSuffix
                amount := data.amount
                customerName := data.customerName
                timestamp := env.now (start + 2000)
                message := "Pago procesado exitosamente" }))
    ∧ (d < 2000 →
        (processingRace env data start d).promise
          = .settled (start + d) (.error ⟨"Timeout: El servidor tardó demasiado"⟩))
    ∧ (∀ t o, (processingRace env data start d).promise.settle t o
        = (processingRace env data start d).promise)
    ∧ (∀ t, (processPayment env data).promise
        ≠ .settled t (.error ⟨"Timeout: El servidor tardó demasiado"⟩)) := by
  have hp := processingRace_promise env data start d
  refine ⟨hp, ?_, ?_, ?_, ?_⟩
  · intro h1 h2
    rw [hp, timerDelay_of_lt d h2, if_neg (by omega)]
    rfl
  · intro h1
    rw [hp, timerDelay_of_lt d (by omega), if_pos h1]
  · intro t o
    rw [hp]
    split <;> rfl
  · intro t ht
    cases hv : (validationStage env data).promise with
    | pending =>
      have := validationStage_promise env data
      rw [hv] at this
      split at this <;> cases this
    | settled tv o =>
      cases o with
      | error e =>
        rw [processPayment_of_validation_error env data tv e hv] at ht
        simp only [PromiseState.settled.injEq, Except.error.injEq] at ht
        obtain ⟨-, rfl⟩ := ht
        have hm := validation_error_messages env data tv _ hv
        revert hm
        decide
      | ok vs =>
        obtain ⟨final, hf⟩ := processPayment_of_validation_ok env data tv vs hv
        rw [hf] at ht
        simp only [PromiseState.settled.injEq, reduceCtorEq, and_false] at ht

theorem processingRace_first_to_settle_wins_witness :
    2000 < 3000 ∧ 3000 < 2147483648
    ∧ (processingRace envMidJanuary2024 (sampleData "12/30") 100 3000).promise
        = .settled (100 + 2000) (.ok
            { success := true
              transactionId :=
                "TXN-" ++ toString (envMidJanuary2024.now (100 + 2000)) ++ "-"
                  ++ envMidJanuary2024.txnSuffix
              amount := (sampleData "12/30").amount
              customerName := (sampleData "12/30").customerName
              timestamp := envMidJanuary2024.now (100 + 2000)
              message := "Pago procesado exitosamente" }) :=
  ⟨by decide, by decide,
    (processingRace_first_to_settle_wins envMidJanuary2024 (sampleData "12/30") 100 3000).2.1
      (by decide) (by decide)⟩

theorem validationList_get (env : Env) (data : TransactionData) (j : Nat) (kj : Task String)
    (h : (validationList env data).get? j = some kj) :
    (j = 0 ∧ kj = validateConnection env) ∨ (j = 1 ∧ kj = validateCard data.cardNumber)
      ∨ (j = 2 ∧ kj = validateCVV data.cvv)
      ∨ (j = 3 ∧ kj = validateExpiry env data.expiryDate) := by
  match j, h with
  | 0, h => exact Or.inl ⟨rfl, (Option.some.inj h).symm⟩
  | 1, h => exact Or.inr (Or.inl ⟨rfl, (Option.some.inj h).symm⟩)
  | 2, h => exact Or.inr (Or.inr (Or.inl ⟨rfl, (Option.some.inj h).symm⟩))
  | 3, h => exact Or.inr (Or.inr (Or.inr ⟨rfl, (Option.some.inj h).symm⟩))
  | n + 4, h => simp [validationList, List.get?] at h

theorem validationList_mem (env : Env) (data : TransactionData) (k : Task String)
    (h : k ∈ validationList env data) :
    k = validateConnection env ∨ k = validateCard data.cardNumber
      ∨ k = validateCVV data.cvv ∨ k = validateExpiry env data.expiryDate := by
  simpa [validationList] using h

/-- C6: the validation stage of `processPayment` rejects if and only if at
least one of the four checks (connection, card, CVV, expiry) rejects. Then
the error `processPayment` rejects with is that of the failing check that
settles first (earliest timer, and among equal timers the one set first), at
the moment that check settles, and the only timers ever set are the four
validation ones: no processing, deadline or post-task is started. Otherwise
all four checks fulfil, the validation stage fulfils, and the processing and
deadline tasks (and later the post-tasks) are started. -/
theorem processPayment_validation_fail_fast (env : Env) (data : TransactionData) :
    ((∃ t e, (validationStage env data).promise = .settled t (.error e))
        ↔ ∃ k ∈ validationList env data, ∃ e, k.callback k.delay = .error e)
    ∧ ((∃ i k e, (validationList env data).get? i = some k
          ∧ k.callback k.delay = .error e
          ∧ (∀ j kj ej, (validationList env data).get? j = some kj →
              kj.callback kj.delay = .error ej →
              k.delay < kj.delay ∨ (k.delay = kj.delay ∧ i ≤ j))
          ∧ (validationStage env data).promise = .settled k.delay (.error e)
          ∧ (processPayment env data).promise = .settled k.delay (.error e)
          ∧ (processPayment env data).started
              = [.validateConnection, .validateCard, .validateCVV, .validateExpiry])
      ∨ ((∀ k ∈ validationList env data, ∃ v, k.callback k.delay = .ok v)
          ∧ (∃ vs, (validationStage env data).promise = .settled 100 (.ok vs))
          ∧ (processPayment env data).started
              = [.validateConnection, .validateCard, .validateCVV, .validateExpiry,
                  .simulateProcessing, .simulateTimeout,
                  .sendEmail, .updateInventory, .logTransaction, .notifyWarehouse]
          ∧ ∃ final, (processPayment env data).promise = .settled 2700 (.ok final))) := by
  have hv := validationStage_promise env data
  have fail : ∀ (i : Nat) (k : Task String) (e : JSError),
      (validationList env data).get? i = some k → k.delay = 100 →
      k.callback 100 = .error e →
      (∀ j kj ej, (validationList env data).get? j = some kj →
        kj.callback 100 = .error ej → i ≤ j) →
      (validationStage env data).promise = .settled 100 (.error e) →
      ((∃ t e, (validationStage env data).promise = .settled t (.error e))
        ↔ ∃ k ∈ validationList env data, ∃ e, k.callback k.delay = .error e)
      ∧ ((∃ i k e, (validationList env data).get? i = some k
          ∧ k.callback k.delay = .error e
          ∧ (∀ j kj ej, (validationList env data).get? j = some kj →
              kj.callback kj.delay = .error ej →
              k.delay < kj.delay ∨ (k.delay = kj.delay ∧ i ≤ j))
          ∧ (validationStage env data).promise = .settled k.delay (.error e)
          ∧ (processPayment env data).promise = .settled k.delay (.error e)
          ∧ (processPayment env data).started
              = [.validateConnection, .validateCard, .validateCVV, .validateExpiry])
      ∨ ((∀ k ∈ validationList env data, ∃ v, k.callback k.delay = .ok v)
          ∧ (∃ vs, (validationStage env data).promise = .settled 100 (.ok vs))
          ∧ (processPayment env data).started
              = [.validateConnection, .validateCard, .validateCVV, .validateExpiry,
                  .simulateProcessing, .simulateTimeout,
                  .sendEmail, .updateInventory, .logTransaction, .notifyWarehouse]
          ∧ ∃ final, (processPayment env data).promise = .settled 2700 (.ok final))) := by
    intro i k e hi hd hc hfirst hstage
    have hdelay : ∀ j kj, (validationList env data).get? j = some kj → kj.delay = 100 := by
      intro j kj hj
      rcases validationList_get env data j kj hj with ⟨-, rfl⟩ | ⟨-, rfl⟩ | ⟨-, rfl⟩ | ⟨-, rfl⟩ <;>
        rfl
    refine ⟨⟨fun _ => ⟨k, List.get?_mem hi, e, by rw [hd]; exact hc⟩,
      fun _ => ⟨100, e, hstage⟩⟩, Or.inl ⟨i, k, e, hi, by rw [hd]; exact hc, ?_, ?_, ?_, ?_⟩⟩
    · intro j kj ej hj hf
      have hdj := hdelay j kj hj
      rw [hdj] at hf
      exact Or.inr ⟨by rw [hd, hdj], hfirst j kj ej hj hf⟩
    · rw [hd]; exact hstage
    · rw [hd, processPayment_of_validation_error env data 100 e hstage]
    · rw [processPayment_of_validation_error env data 100 e hstage]
  rcases h1 : (validateConnection env).callback 100 with e1 | v1
  · simp only [h1] at hv
    refine fail 0 _ e1 rfl rfl h1 (fun j _ _ _ _ => Nat.zero_le j) hv
  rcases h2 : (validateCard data.cardNumber).callback 100 with e2 | v2
  · simp only [h1, h2] at hv
    refine fail 1 _ e2 rfl rfl h2 ?_ hv
    intro j kj ej hj hf
    rcases validationList_get env data j kj hj with ⟨rfl, rfl⟩ | ⟨rfl, -⟩ | ⟨rfl, -⟩ | ⟨rfl, -⟩
    · rw [h1] at hf; cases hf
    all_goals omega
  rcases h3 : (validateCVV data.cvv).callback 100 with e3 | v3
  · simp only [h1, h2, h3] at hv
    refine fail 2 _ e3 rfl rfl h3 ?_ hv
    intro j kj ej hj hf
    rcases validationList_get env data j kj hj with ⟨rfl, rfl⟩ | ⟨rfl, rfl⟩ | ⟨rfl, -⟩ | ⟨rfl, -⟩
    · rw [h1] at hf; cases hf
    · rw [h2] at hf; cases hf
    all_goals omega
  rcases h4 : (validateExpiry env data.expiryDate).callback 100 with e4 | v4
  · simp only [h1, h2, h3, h4] at hv
    refine fail 3 _ e4 rfl rfl h4 ?_ hv
    intro j kj ej hj hf
    rcases validationList_get env data j kj hj with ⟨rfl, rfl⟩ | ⟨rfl, rfl⟩ | ⟨rfl, rfl⟩ | ⟨rfl, -⟩
    · rw [h1] at hf; cases hf
    · rw [h2] at hf; cases hf
    · rw [h3] at hf; cases hf
    · omega
  · simp only [h1, h2, h3, h4] at hv
    have hall : ∀ k ∈ validationList env data, ∃ v, k.callback k.delay = .ok v := by
      intro k hk
      rcases validationList_mem env data k hk with rfl | rfl | rfl | rfl
      · exact ⟨v1, h1⟩
      · exact ⟨v2, h2⟩
      · exact ⟨v3, h3⟩
      · exact ⟨v4, h4⟩
    obtain ⟨final, hf⟩ := processPayment_of_validation_ok env data 100 _ hv
    refine ⟨⟨?_, ?_⟩, Or.inr ⟨hall, ⟨_, hv⟩, by rw [hf], ⟨final, by rw [hf]⟩⟩⟩
    · rintro ⟨t, e, h⟩
      rw [hv] at h
      cases h
    · rintro ⟨k, hk, e, he⟩
      obtain ⟨v, hv2⟩ := hall k hk
      rw [hv2] at he
      cases he

end PaymentPWA
